import Mathlib

/-!
Verification of the batch-construction and submission pipeline of
src/app.py (Data Sync Pro v2, a Streamlit CSV-to-catalog sync tool).

The pipeline is shallowly embedded: pandas cell values become the
inductive type Value, a row (a Python dict from column name to value)
becomes an association list, the dispatch loop over
range(0, total_records, batch_size) becomes a fold over the list of
slice start offsets, and the HTTP transport becomes an oracle mapping
the 0-based batch index to either a response status or an exception.
-/

namespace DataSync

/-- A pandas cell value as seen by the cleaning loop of app.py: either a
missing marker (NaN or None, the values for which pd.notna is false), a
string, an integer, or a boolean. -/
inductive Value where
  | missing
  | vStr (s : String)
  | vInt (n : Int)
  | vBool (b : Bool)
deriving DecidableEq, Repr

/-- Embeds pd.notna: false exactly on the missing marker. -/
def notna : Value → Bool
  | Value.missing => false
  | _ => true

/-- Embeds Python str() on a cell value (str of NaN is the text nan). -/
def pyStr : Value → String
  | Value.missing => "nan"
  | Value.vStr s => s
  | Value.vInt n => toString n
  | Value.vBool b => if b then "True" else "False"

/-- Embeds Python str.strip(): drop whitespace from both ends. -/
def pyStrip (s : String) : String :=
  String.mk (((s.data.dropWhile Char.isWhitespace).reverse.dropWhile
    Char.isWhitespace).reverse)

/-- Embeds Python truthiness bool(v) of a cell value: empty strings,
zero and False are falsy.  (NaN itself is truthy in Python, but a
missing value never reaches a truthiness test in app.py because
cleaning removes it first.) -/
def truthy : Value → Bool
  | Value.missing => true
  | Value.vStr s => !(s == "")
  | Value.vInt n => !(n == 0)
  | Value.vBool b => b

/-- A row of the dataframe: df.to_dict(orient='records') yields one dict
per row, embedded as an association list from column name to value in
column order. -/
abbrev Row := List (String × Value)

/-- Embeds dict.get k: the value at the first matching key, if any. -/
def dictGet (r : Row) (k : String) : Option Value :=
  List.lookup k r

/-- Embeds line 77 of app.py: keep exactly the fields whose value is
present (pd.notna) and whose text form is non-empty after stripping. -/
def cleanRow (row : Row) : Row :=
  row.filter (fun kv => notna kv.2 && !(pyStrip (pyStr kv.2) == ""))

/-- Truthiness of an optional dict.get result: None is falsy. -/
def optTruthy : Option Value → Bool
  | none => false
  | some v => truthy v

/-- Embeds the line 78 guard: clean_row.get('id') and clean_row.get('title')
are both truthy. -/
def gate (c : Row) : Bool :=
  optTruthy (dictGet c "id") && optTruthy (dictGet c "title")

/-- The record sanitizer of the spec, read off lines 76-79 of app.py:
the cleaned row together with its eligibility flag. -/
def sanitize (row : Row) : Row × Bool :=
  (cleanRow row, gate (cleanRow row))

/-- A raw row is eligible when its cleaned form passes the gate. -/
def isEligibleRow (row : Row) : Bool :=
  gate (cleanRow row)

/-- Embeds the clean_batch accumulation of lines 75-79: the cleaned
forms of the eligible rows of the batch, in order. -/
def cleanBatch (batch : List Row) : List Row :=
  batch.filterMap (fun row =>
    let c := cleanRow row
    if gate c then some c else none)

/-- Number of eligible rows of the whole input. -/
def eligibleCount (records : List Row) : Nat :=
  (records.filter (fun r => isEligibleRow r)).length

/-- Number of ineligible rows of the whole input (the rows the spec
calls skipped). -/
def ineligibleCount (records : List Row) : Nat :=
  (records.filter (fun r => !(isEligibleRow r))).length

/-- Embeds Python list slicing l[i:i+n]. -/
def slice (l : List α) (i n : Nat) : List α :=
  (l.drop i).take n

/-- Loop of Python range(0, stop, step): starting from i, emit indices
below stop advancing by step.  The fuel argument only forces
termination; stop units of fuel suffice whenever step is at least 1. -/
def pyRangeAux (stop step : Nat) : Nat → Nat → List Nat
  | _, 0 => []
  | i, fuel + 1 => if i < stop then i :: pyRangeAux stop step (i + step) fuel else []

/-- Embeds Python range(0, stop, step). -/
def pyRange (stop step : Nat) : List Nat :=
  pyRangeAux stop step 0 stop

/-- The batches of the processing loop (line 71-72 of app.py): for each
start offset i of range(0, total, size), the pair of i and the slice
records[i:i+size]. -/
def pyBatches (records : List Row) (size : Nat) : List (Nat × List Row) :=
  (pyRange records.length size).map (fun i => (i, slice records i size))

/-- The batch contents alone, without their start offsets. -/
def pyChunks (l : List α) (size : Nat) : List (List α) :=
  (pyRange l.length size).map (fun i => slice l i size)

/-- Result of one requests.post call: either a response carrying a
status code, or a raised exception (connection error and the like).
The response body is read only for diagnostic display in app.py and
never influences control flow, so it is not modelled. -/
inductive TransportResult where
  | res (status : Int)
  | exn (msg : String)
deriving DecidableEq, Repr

/-- Classification of a dispatched batch, read off lines 104-139:
status 200 is a success, any other status a rejection, and a raised
exception a transport error. -/
inductive OutcomeKind where
  | success
  | rejected
  | transportError
deriving DecidableEq, Repr

/-- One per-batch outcome record: the 1-based batch number of line 103,
the classification, the status code when a response was obtained, and
the number of submitted items. -/
structure BatchOutcome where
  batchNum : Nat
  kind : OutcomeKind
  status : Option Int
  count : Nat
deriving DecidableEq, Repr

/-- The mutable state of the processing loop: the two counters of lines
65-66, plus the observable event streams — transport invocations with
their payloads, per-batch outcome log entries, and the progress captions
of line 143 ((items processed so far, total)). -/
structure RunState where
  success : Nat
  error : Nat
  calls : List (Nat × List Row)
  outcomes : List BatchOutcome
  progress : List (Nat × Nat)
deriving DecidableEq, Repr

/-- Counters start at zero and no event has been emitted. -/
def initState : RunState :=
  ⟨0, 0, [], [], []⟩

/-- One iteration of the processing loop of lines 71-144 at start
offset ib.1 with batch ib.2: clean the batch; if nothing eligible
remains, continue (line 81) — no call, no log entry, and no progress
update, since continue skips lines 141-144 too; otherwise post the
payload, classify the result by status code, bump the matching
counter, log the outcome, and emit the progress caption. -/
def step (size total : Nat) (resp : Nat → TransportResult)
    (s : RunState) (ib : Nat × List Row) : RunState :=
  let cb := cleanBatch ib.2
  if cb.isEmpty then s
  else
    let bn := ib.1 / size + 1
    let s1 : RunState := { s with calls := s.calls ++ [(bn, cb)] }
    let s2 : RunState :=
      match resp (ib.1 / size) with
      | TransportResult.res st =>
          if st == 200 then
            { s1 with success := s1.success + cb.length,
                      outcomes := s1.outcomes ++ [⟨bn, OutcomeKind.success, some st, cb.length⟩] }
          else
            { s1 with error := s1.error + cb.length,
                      outcomes := s1.outcomes ++ [⟨bn, OutcomeKind.rejected, some st, cb.length⟩] }
      | TransportResult.exn _ =>
          { s1 with error := s1.error + cb.length,
                    outcomes := s1.outcomes ++ [⟨bn, OutcomeKind.transportError, none, cb.length⟩] }
    { s2 with progress := s2.progress ++ [(min (ib.1 + size) total, total)] }

/-- The whole synchronization run of lines 61-144: fold the loop body
over the batches, with the transport oracle resp giving the result of
the post for each 0-based batch index. -/
def runSync (size : Nat) (resp : Nat → TransportResult)
    (records : List Row) : RunState :=
  (pyBatches records size).foldl (step size records.length resp) initState

/-- The final summary of line 146, exactly the string the run reports. -/
def finalMessage (s : RunState) : String :=
  "Job Complete! Sent: " ++ toString s.success ++ " | Failed: " ++ toString s.error

/-- Result of the whole app action: the schema check of lines 53-55
fails, the token guard of lines 58-59 fails, or the run happens. -/
inductive AppResult where
  | schemaError
  | tokenMissing
  | ran (s : RunState)
deriving DecidableEq, Repr

/-- Embeds the control flow of lines 53-60: the column check runs
first and stops the app when id or title is absent; then an empty
token aborts before any counter or loop state exists; otherwise the
dispatch loop runs. -/
def runApp (cols : List String) (token : String) (size : Nat)
    (resp : Nat → TransportResult) (records : List Row) : AppResult :=
  if "id" ∉ cols ∨ "title" ∉ cols then AppResult.schemaError
  else if token = "" then AppResult.tokenMissing
  else AppResult.ran (runSync size resp records)

/-- The transport invocations of an app action: none unless the
dispatch loop ran. -/
def appCalls : AppResult → List (Nat × List Row)
  | AppResult.ran s => s.calls
  | _ => []

/-- Whether the dispatch loop ran at all (counters created). -/
def isRan : AppResult → Bool
  | AppResult.ran _ => true
  | _ => false

/-- Per-batch transport invocation, if any: an empty cleaned batch
makes no call, a nonempty one posts its cleaned rows. -/
def callOf (size : Nat) (ib : Nat × List Row) : Option (Nat × List Row) :=
  let cb := cleanBatch ib.2
  if cb.isEmpty then none else some (ib.1 / size + 1, cb)

/-- Per-batch contribution to the success counter. -/
def succContrib (size : Nat) (resp : Nat → TransportResult)
    (ib : Nat × List Row) : Nat :=
  let cb := cleanBatch ib.2
  if cb.isEmpty then 0
  else
    match resp (ib.1 / size) with
    | TransportResult.res st => if st == 200 then cb.length else 0
    | TransportResult.exn _ => 0

/-- Per-batch contribution to the error counter. -/
def errContrib (size : Nat) (resp : Nat → TransportResult)
    (ib : Nat × List Row) : Nat :=
  let cb := cleanBatch ib.2
  if cb.isEmpty then 0
  else
    match resp (ib.1 / size) with
    | TransportResult.res st => if st == 200 then 0 else cb.length
    | TransportResult.exn _ => cb.length

/-- Per-batch outcome log entry, if any. -/
def outcomeOf (size : Nat) (resp : Nat → TransportResult)
    (ib : Nat × List Row) : Option BatchOutcome :=
  let cb := cleanBatch ib.2
  if cb.isEmpty then none
  else
    some (match resp (ib.1 / size) with
      | TransportResult.res st =>
          if st == 200 then ⟨ib.1 / size + 1, OutcomeKind.success, some st, cb.length⟩
          else ⟨ib.1 / size + 1, OutcomeKind.rejected, some st, cb.length⟩
      | TransportResult.exn _ =>
          ⟨ib.1 / size + 1, OutcomeKind.transportError, none, cb.length⟩)

/-- Per-batch progress caption, if any. -/
def progOf (size total : Nat) (ib : Nat × List Row) : Option (Nat × Nat) :=
  if (cleanBatch ib.2).isEmpty then none
  else some (min (ib.1 + size) total, total)

/-! ### Characterizing one loop iteration field by field -/

lemma step_calls (size total : Nat) (resp : Nat → TransportResult)
    (s : RunState) (ib : Nat × List Row) :
    (step size total resp s ib).calls = s.calls ++ (callOf size ib).toList := by
  unfold step callOf
  by_cases h : (cleanBatch ib.2).isEmpty
  · simp [h]
  · cases hr : resp (ib.1 / size) with
    | res st => by_cases h2 : st == 200 <;> simp [h, hr, h2]
    | exn m => simp [h, hr]

lemma step_success (size total : Nat) (resp : Nat → TransportResult)
    (s : RunState) (ib : Nat × List Row) :
    (step size total resp s ib).success = s.success + succContrib size resp ib := by
  unfold step succContrib
  by_cases h : (cleanBatch ib.2).isEmpty
  · simp [h]
  · cases hr : resp (ib.1 / size) with
    | res st => by_cases h2 : st == 200 <;> simp [h, hr, h2]
    | exn m => simp [h, hr]

lemma step_error (size total : Nat) (resp : Nat → TransportResult)
    (s : RunState) (ib : Nat × List Row) :
    (step size total resp s ib).error = s.error + errContrib size resp ib := by
  unfold step errContrib
  by_cases h : (cleanBatch ib.2).isEmpty
  · simp [h]
  · cases hr : resp (ib.1 / size) with
    | res st => by_cases h2 : st == 200 <;> simp [h, hr, h2]
    | exn m => simp [h, hr]

lemma step_outcomes (size total : Nat) (resp : Nat → TransportResult)
    (s : RunState) (ib : Nat × List Row) :
    (step size total resp s ib).outcomes = s.outcomes ++ (outcomeOf size resp ib).toList := by
  unfold step outcomeOf
  by_cases h : (cleanBatch ib.2).isEmpty
  · simp [h]
  · cases hr : resp (ib.1 / size) with
    | res st => by_cases h2 : st == 200 <;> simp [h, hr, h2]
    | exn m => simp [h, hr]

lemma step_progress (size total : Nat) (resp : Nat → TransportResult)
    (s : RunState) (ib : Nat × List Row) :
    (step size total resp s ib).progress = s.progress ++ (progOf size total ib).toList := by
  unfold step progOf
  by_cases h : (cleanBatch ib.2).isEmpty
  · simp [h]
  · cases hr : resp (ib.1 / size) with
    | res st => by_cases h2 : st == 200 <;> simp [h, hr, h2]
    | exn m => simp [h, hr]

/-! ### Characterizing the whole fold -/

lemma foldl_calls (size total : Nat) (resp : Nat → TransportResult) :
    ∀ (B : List (Nat × List Row)) (s : RunState),
      (B.foldl (step size total resp) s).calls
        = s.calls ++ B.filterMap (callOf size) := by
  intro B
  induction B with
  | nil => intro s; simp
  | cons ib B ih =>
    intro s
    rw [List.foldl_cons, ih, step_calls]
    cases h : callOf size ib <;> simp [List.filterMap_cons, h]

lemma foldl_success (size total : Nat) (resp : Nat → TransportResult) :
    ∀ (B : List (Nat × List Row)) (s : RunState),
      (B.foldl (step size total resp) s).success
        = s.success + (B.map (succContrib size resp)).sum := by
  intro B
  induction B with
  | nil => intro s; simp
  | cons ib B ih =>
    intro s
    rw [List.foldl_cons, ih, step_success]
    simp [Nat.add_assoc]

lemma foldl_error (size total : Nat) (resp : Nat → TransportResult) :
    ∀ (B : List (Nat × List Row)) (s : RunState),
      (B.foldl (step size total resp) s).error
        = s.error + (B.map (errContrib size resp)).sum := by
  intro B
  induction B with
  | nil => intro s; simp
  | cons ib B ih =>
    intro s
    rw [List.foldl_cons, ih, step_error]
    simp [Nat.add_assoc]

lemma foldl_outcomes (size total : Nat) (resp : Nat → TransportResult) :
    ∀ (B : List (Nat × List Row)) (s : RunState),
      (B.foldl (step size total resp) s).outcomes
        = s.outcomes ++ B.filterMap (outcomeOf size resp) := by
  intro B
  induction B with
  | nil => intro s; simp
  | cons ib B ih =>
    intro s
    rw [List.foldl_cons, ih, step_outcomes]
    cases h : outcomeOf size resp ib <;> simp [List.filterMap_cons, h]

lemma foldl_progress (size total : Nat) (resp : Nat → TransportResult) :
    ∀ (B : List (Nat × List Row)) (s : RunState),
      (B.foldl (step size total resp) s).progress
        = s.progress ++ B.filterMap (progOf size total) := by
  intro B
  induction B with
  | nil => intro s; simp
  | cons ib B ih =>
    intro s
    rw [List.foldl_cons, ih, step_progress]
    cases h : progOf size total ib <;> simp [List.filterMap_cons, h]

lemma runSync_calls (size : Nat) (resp : Nat → TransportResult) (records : List Row) :
    (runSync size resp records).calls
      = (pyBatches records size).filterMap (callOf size) := by
  rw [runSync, foldl_calls]
  rfl

lemma runSync_success (size : Nat) (resp : Nat → TransportResult) (records : List Row) :
    (runSync size resp records).success
      = ((pyBatches records size).map (succContrib size resp)).sum := by
  rw [runSync, foldl_success]
  simp [initState]

lemma runSync_error (size : Nat) (resp : Nat → TransportResult) (records : List Row) :
    (runSync size resp records).error
      = ((pyBatches records size).map (errContrib size resp)).sum := by
  rw [runSync, foldl_error]
  simp [initState]

lemma runSync_outcomes (size : Nat) (resp : Nat → TransportResult) (records : List Row) :
    (runSync size resp records).outcomes
      = (pyBatches records size).filterMap (outcomeOf size resp) := by
  rw [runSync, foldl_outcomes]
  rfl

lemma runSync_progress (size : Nat) (resp : Nat → TransportResult) (records : List Row) :
    (runSync size resp records).progress
      = (pyBatches records size).filterMap (progOf size (records.length)) := by
  rw [runSync, foldl_progress]
  rfl

/-- Counting a filterMap by the predicate deciding when it fires. -/
lemma length_filterMap_eq_filter {α β : Type} (f : α → Option β) (p : α → Bool)
    (h : ∀ x, (f x).isSome = p x) :
    ∀ l : List α, (l.filterMap f).length = (l.filter p).length := by
  intro l
  induction l with
  | nil => rfl
  | cons a l ih =>
    have ha := h a
    cases hf : f a with
    | none =>
      rw [hf] at ha
      simp only [Option.isSome] at ha
      simp [List.filterMap_cons, List.filter_cons, hf, ← ha, ih]
    | some b =>
      rw [hf] at ha
      simp only [Option.isSome] at ha
      simp [List.filterMap_cons, List.filter_cons, hf, ← ha, ih]

/-! ### Structure of the range-driven batching -/

lemma pyRangeAux_succ (stop stp i fuel : Nat) :
    pyRangeAux stop stp i (fuel + 1)
      = if i < stop then i :: pyRangeAux stop stp (i + stp) fuel else [] := rfl

lemma pyRangeAux_shift (stop stp : Nat) :
    ∀ (fuel i : Nat),
      pyRangeAux stop stp (i + stp) fuel
        = (pyRangeAux (stop - stp) stp i fuel).map (fun j => j + stp) := by
  intro fuel
  induction fuel with
  | zero => intro i; rfl
  | succ fuel ih =>
    intro i
    by_cases h : i < stop - stp
    · have h2 : i + stp < stop := by omega
      rw [pyRangeAux_succ, pyRangeAux_succ, if_pos h, if_pos h2, List.map_cons]
      rw [ih (i + stp)]
    · have h2 : ¬ (i + stp < stop) := by omega
      rw [pyRangeAux_succ, pyRangeAux_succ, if_neg h, if_neg h2, List.map_nil]

lemma pyRangeAux_fuel_succ (stop stp : Nat) (hs : 1 ≤ stp) :
    ∀ (fuel i : Nat), stop - i ≤ fuel →
      pyRangeAux stop stp i (fuel + 1) = pyRangeAux stop stp i fuel := by
  intro fuel
  induction fuel with
  | zero =>
    intro i h
    have h2 : ¬ i < stop := by omega
    rw [pyRangeAux_succ, if_neg h2]
    rfl
  | succ fuel ih =>
    intro i h
    by_cases hi : i < stop
    · rw [pyRangeAux_succ, if_pos hi]
      conv_rhs => rw [pyRangeAux_succ, if_pos hi]
      rw [ih (i + stp) (by omega)]
    · rw [pyRangeAux_succ, if_neg hi]
      conv_rhs => rw [pyRangeAux_succ, if_neg hi]

lemma pyRangeAux_fuel_ge (stop stp : Nat) (hs : 1 ≤ stp) :
    ∀ (f2 f1 i : Nat), stop - i ≤ f1 → f1 ≤ f2 →
      pyRangeAux stop stp i f2 = pyRangeAux stop stp i f1 := by
  intro f2
  induction f2 with
  | zero =>
    intro f1 i h1 h2
    have : f1 = 0 := by omega
    rw [this]
  | succ f2 ih =>
    intro f1 i h1 h2
    rcases Nat.eq_or_lt_of_le h2 with he | hl
    · rw [he]
    · calc pyRangeAux stop stp i (f2 + 1)
          = pyRangeAux stop stp i f2 := by
            exact pyRangeAux_fuel_succ stop stp hs f2 i (by omega)
        _ = pyRangeAux stop stp i f1 := ih f1 i h1 (by omega)

lemma pyRange_peel (n s : Nat) (hs : 1 ≤ s) (hn : 1 ≤ n) :
    pyRange n s = 0 :: (pyRange (n - s) s).map (fun j => j + s) := by
  obtain ⟨m, rfl⟩ : ∃ m, n = m + 1 := ⟨n - 1, by omega⟩
  show pyRangeAux (m + 1) s 0 (m + 1) = _
  have h0 : (0 : Nat) < m + 1 := by omega
  rw [pyRangeAux_succ, if_pos h0]
  have hsh := pyRangeAux_shift (m + 1) s m 0
  simp only [Nat.zero_add] at hsh
  rw [Nat.zero_add, hsh]
  have hfe : pyRangeAux (m + 1 - s) s 0 m = pyRangeAux (m + 1 - s) s 0 (m + 1 - s) := by
    exact pyRangeAux_fuel_ge (m + 1 - s) s hs m (m + 1 - s) 0 (by omega) (by omega)
  rw [hfe]
  rfl

lemma pyRange_zero (s : Nat) : pyRange 0 s = [] := rfl

lemma pyChunks_nil (s : Nat) : pyChunks ([] : List α) s = [] := rfl

lemma pyChunks_peel (s : Nat) (hs : 1 ≤ s) (l : List α) (hl : l ≠ []) :
    pyChunks l s = l.take s :: pyChunks (l.drop s) s := by
  have hn : 1 ≤ l.length := by
    cases l with
    | nil => exact absurd rfl hl
    | cons a t => simp
  unfold pyChunks
  rw [pyRange_peel l.length s hs hn, List.map_cons, List.map_map]
  have hfun : ((fun i => slice l i s) ∘ fun j => j + s)
      = (fun i => slice (l.drop s) i s) := by
    funext i
    simp only [Function.comp, slice]
    rw [List.drop_drop, Nat.add_comm s i]
  have hlen : l.length - s = (l.drop s).length := by simp
  rw [hfun, hlen]
  simp [slice]

lemma pyChunks_ne_nil (s : Nat) (hs : 1 ≤ s) (l : List α) (hl : l ≠ []) :
    pyChunks l s ≠ [] := by
  rw [pyChunks_peel s hs l hl]
  simp

lemma pyChunks_join_bounded (s : Nat) (hs : 1 ≤ s) :
    ∀ (n : Nat) (l : List α), l.length ≤ n → (pyChunks l s).flatten = l := by
  intro n
  induction n with
  | zero =>
    intro l h
    have : l = [] := by
      cases l with
      | nil => rfl
      | cons a t => simp at h
    rw [this, pyChunks_nil]
    rfl
  | succ n ih =>
    intro l h
    by_cases hl : l = []
    · rw [hl, pyChunks_nil]; rfl
    · rw [pyChunks_peel s hs l hl]
      have hlen : 1 ≤ l.length := by
        cases l with
        | nil => exact absurd rfl hl
        | cons a t => simp
      have hrec : (pyChunks (l.drop s) s).flatten = l.drop s := by
        apply ih
        simp only [List.length_drop]
        omega
      simp only [List.flatten_cons, hrec]
      exact List.take_append_drop s l

/-- Concatenating all batches in order reproduces the input. -/
lemma pyChunks_join (s : Nat) (hs : 1 ≤ s) (l : List α) :
    (pyChunks l s).flatten = l :=
  pyChunks_join_bounded s hs l.length l le_rfl

lemma pyChunks_length_bounded (s : Nat) (hs : 1 ≤ s) :
    ∀ (n : Nat) (l : List α), l.length ≤ n →
      (pyChunks l s).length = (l.length + s - 1) / s := by
  intro n
  induction n with
  | zero =>
    intro l h
    have : l = [] := by
      cases l with
      | nil => rfl
      | cons a t => simp at h
    rw [this, pyChunks_nil]
    simp only [List.length_nil]
    rw [Nat.div_eq_of_lt (by omega)]
  | succ n ih =>
    intro l h
    by_cases hl : l = []
    · rw [hl, pyChunks_nil]
      simp only [List.length_nil]
      rw [Nat.div_eq_of_lt (by omega)]
    · have hlen : 1 ≤ l.length := by
        cases l with
        | nil => exact absurd rfl hl
        | cons a t => simp
      rw [pyChunks_peel s hs l hl]
      have hrec : (pyChunks (l.drop s) s).length = ((l.drop s).length + s - 1) / s := by
        apply ih
        simp only [List.length_drop]
        omega
      simp only [List.length_cons, hrec, List.length_drop]
      have hview : l.length + s - 1 = (l.length - 1) + s := by omega
      rw [hview, Nat.add_div_right _ (by omega : 0 < s)]
      by_cases hms : l.length ≤ s
      · rw [show l.length - s = 0 from by omega]
        rw [show (0 : Nat) + s - 1 = s - 1 from by omega]
        rw [Nat.div_eq_of_lt (by omega : l.length - 1 < s)]
        rw [Nat.div_eq_of_lt (by omega : s - 1 < s)]
      · rw [show l.length - s + s - 1 = l.length - 1 from by omega]

lemma pyChunks_dropLast_bounded (s : Nat) (hs : 1 ≤ s) :
    ∀ (n : Nat) (l : List α), l.length ≤ n →
      ∀ c ∈ (pyChunks l s).dropLast, c.length = s := by
  intro n
  induction n with
  | zero =>
    intro l h c hc
    have : l = [] := by
      cases l with
      | nil => rfl
      | cons a t => simp at h
    rw [this, pyChunks_nil] at hc
    simp at hc
  | succ n ih =>
    intro l h c hc
    by_cases hl : l = []
    · rw [hl, pyChunks_nil] at hc
      simp at hc
    · rw [pyChunks_peel s hs l hl] at hc
      by_cases hr : l.drop s = []
      · rw [hr, pyChunks_nil] at hc
        simp at hc
      · have hres : pyChunks (l.drop s) s ≠ [] := pyChunks_ne_nil s hs (l.drop s) hr
        obtain ⟨b, rs, hbrs⟩ : ∃ b rs, pyChunks (l.drop s) s = b :: rs := by
          cases hx : pyChunks (l.drop s) s with
          | nil => exact absurd hx hres
          | cons b rs => exact ⟨b, rs, rfl⟩
        rw [hbrs] at hc
        simp only [List.dropLast_cons₂, List.mem_cons] at hc
        rcases hc with hc | hc
        · rw [hc]
          have hlong : s < l.length := by
            by_contra hcon
            have : l.drop s = [] := List.drop_eq_nil_of_le (by omega)
            exact hr this
          simp [List.length_take]
          omega
        · have := ih (l.drop s) (by simp only [List.length_drop]; omega)
          rw [hbrs] at this
          exact this c hc

lemma pyChunks_getLast_bounded (s : Nat) (hs : 1 ≤ s) :
    ∀ (n : Nat) (l : List α), l.length ≤ n → l ≠ [] →
      ∀ c, (pyChunks l s).getLast? = some c → 1 ≤ c.length ∧ c.length ≤ s := by
  intro n
  induction n with
  | zero =>
    intro l h hl c hc
    have : l = [] := by
      cases l with
      | nil => rfl
      | cons a t => simp at h
    exact absurd this hl
  | succ n ih =>
    intro l h hl c hc
    rw [pyChunks_peel s hs l hl] at hc
    by_cases hr : l.drop s = []
    · rw [hr, pyChunks_nil] at hc
      simp only [List.getLast?_singleton, Option.some.injEq] at hc
      have hshort : l.length ≤ s := by
        by_contra hcon
        have : l.drop s ≠ [] := by
          apply List.ne_nil_of_length_pos
          simp only [List.length_drop]
          omega
        exact this hr
      have hlen : 1 ≤ l.length := by
        cases l with
        | nil => exact absurd rfl hl
        | cons a t => simp
      rw [← hc]
      simp [List.length_take]
      omega
    · have hres : pyChunks (l.drop s) s ≠ [] := pyChunks_ne_nil s hs (l.drop s) hr
      obtain ⟨b, rs, hbrs⟩ : ∃ b rs, pyChunks (l.drop s) s = b :: rs := by
        cases hx : pyChunks (l.drop s) s with
        | nil => exact absurd hx hres
        | cons b rs => exact ⟨b, rs, rfl⟩
      rw [hbrs, List.getLast?_cons_cons] at hc
      have := ih (l.drop s) (by simp only [List.length_drop]; omega) hr c
      rw [hbrs] at this
      exact this hc

/-! ### Counting eligible rows across batches -/

lemma cleanBatch_eq (b : List Row) :
    cleanBatch b = (b.filter (fun r => isEligibleRow r)).map cleanRow := by
  induction b with
  | nil => rfl
  | cons r b ih =>
    by_cases h : gate (cleanRow r)
    · simp [cleanBatch, List.filterMap_cons, List.filter_cons, isEligibleRow, h] at ih ⊢
      exact ih
    · simp [cleanBatch, List.filterMap_cons, List.filter_cons, isEligibleRow, h] at ih ⊢
      exact ih

lemma cleanBatch_length (b : List Row) :
    (cleanBatch b).length = (b.filter (fun r => isEligibleRow r)).length := by
  rw [cleanBatch_eq, List.length_map]

lemma succContrib_add_errContrib (size : Nat) (resp : Nat → TransportResult)
    (ib : Nat × List Row) :
    succContrib size resp ib + errContrib size resp ib = (cleanBatch ib.2).length := by
  unfold succContrib errContrib
  by_cases h : (cleanBatch ib.2).isEmpty
  · have : (cleanBatch ib.2).length = 0 := by
      rw [List.isEmpty_iff] at h
      rw [h]
      rfl
    simp [h, this]
  · cases hr : resp (ib.1 / size) with
    | res st => by_cases h2 : st == 200 <;> simp [h, hr, h2]
    | exn m => simp [h, hr]

lemma sum_map_add {α : Type} (f g : α → Nat) :
    ∀ l : List α, (l.map (fun x => f x + g x)).sum = (l.map f).sum + (l.map g).sum := by
  intro l
  induction l with
  | nil => rfl
  | cons a l ih =>
    simp only [List.map_cons, List.sum_cons, ih]
    omega

lemma filter_flatten_length {α : Type} (p : α → Bool) :
    ∀ L : List (List α),
      ((L.flatten.filter p)).length = (L.map (fun c => (c.filter p).length)).sum := by
  intro L
  induction L with
  | nil => rfl
  | cons c L ih =>
    simp only [List.flatten_cons, List.filter_append, List.length_append,
      List.map_cons, List.sum_cons, ih]

/-- Summed over all batches, the eligible rows are exactly the eligible
rows of the whole input: no row is lost or duplicated by the batching. -/
lemma sum_cleanBatch_length (size : Nat) (hs : 1 ≤ size) (records : List Row) :
    ((pyBatches records size).map (fun ib => (cleanBatch ib.2).length)).sum
      = eligibleCount records := by
  have h1 : (pyBatches records size).map (fun ib => (cleanBatch ib.2).length)
      = (pyChunks records size).map (fun c => (cleanBatch c).length) := by
    unfold pyBatches pyChunks
    rw [List.map_map, List.map_map]
    rfl
  rw [h1]
  have h2 : (pyChunks records size).map (fun c => (cleanBatch c).length)
      = (pyChunks records size).map (fun c => (c.filter (fun r => isEligibleRow r)).length) := by
    simp only [cleanBatch_length]
  rw [h2, ← filter_flatten_length, pyChunks_join size hs records]
  rfl

lemma eligible_add_ineligible (records : List Row) :
    eligibleCount records + ineligibleCount records = records.length := by
  unfold eligibleCount ineligibleCount
  induction records with
  | nil => rfl
  | cons r records ih =>
    cases hx : isEligibleRow r
    · simp [List.filter_cons, hx]
      omega
    · simp [List.filter_cons, hx]
      omega

/-- The success and error counters together account for every eligible
row of the input: each dispatched batch adds its eligible count to
exactly one of the two, and empty batches contribute nothing. -/
lemma success_add_error (size : Nat) (hs : 1 ≤ size)
    (resp : Nat → TransportResult) (records : List Row) :
    (runSync size resp records).success + (runSync size resp records).error
      = eligibleCount records := by
  rw [runSync_success, runSync_error, ← sum_map_add, ← sum_cleanBatch_length size hs records]
  congr 1
  apply List.map_congr_left
  intro ib hib
  exact succContrib_add_errContrib size resp ib

/-! ### Membership facts about cleaned rows and payloads -/

lemma mem_of_dictGet (r : Row) (k : String) (v : Value)
    (h : dictGet r k = some v) : (k, v) ∈ r := by
  induction r with
  | nil => simp [dictGet, List.lookup] at h
  | cons kv r ih =>
    obtain ⟨k1, v1⟩ := kv
    by_cases hk : k = k1
    · subst hk
      simp only [dictGet, List.lookup, beq_self_eq_true, Option.some.injEq] at h
      subst h
      exact List.mem_cons_self _ _
    · have hbeq : (k == k1) = false := by
        simp [hk]
      simp only [dictGet, List.lookup, hbeq] at h
      exact List.mem_cons_of_mem _ (ih h)

lemma mem_cleanRow_iff (row : Row) (kv : String × Value) :
    kv ∈ cleanRow row
      ↔ kv ∈ row ∧ notna kv.2 = true ∧ pyStrip (pyStr kv.2) ≠ "" := by
  unfold cleanRow
  rw [List.mem_filter]
  constructor
  · rintro ⟨h1, h2⟩
    simp only [Bool.and_eq_true, Bool.not_eq_true', beq_eq_false_iff_ne] at h2
    exact ⟨h1, h2.1, h2.2⟩
  · rintro ⟨h1, h2, h3⟩
    refine ⟨h1, ?_⟩
    simp only [Bool.and_eq_true, Bool.not_eq_true', beq_eq_false_iff_ne]
    exact ⟨h2, h3⟩

lemma gate_eq_true_iff (c : Row) :
    gate c = true
      ↔ (∃ v, dictGet c "id" = some v ∧ truthy v = true)
        ∧ (∃ v, dictGet c "title" = some v ∧ truthy v = true) := by
  unfold gate
  rw [Bool.and_eq_true]
  constructor
  · rintro ⟨h1, h2⟩
    constructor
    · cases hv : dictGet c "id" with
      | none => rw [hv] at h1; simp [optTruthy] at h1
      | some v => rw [hv] at h1; exact ⟨v, rfl, h1⟩
    · cases hv : dictGet c "title" with
      | none => rw [hv] at h2; simp [optTruthy] at h2
      | some v => rw [hv] at h2; exact ⟨v, rfl, h2⟩
  · rintro ⟨⟨v1, hv1, ht1⟩, ⟨v2, hv2, ht2⟩⟩
    rw [hv1, hv2]
    exact ⟨ht1, ht2⟩

lemma mem_cleanBatch (b : List Row) (c : Row) (h : c ∈ cleanBatch b) :
    (∃ r ∈ b, c = cleanRow r) ∧ gate c = true := by
  rw [cleanBatch_eq] at h
  rw [List.mem_map] at h
  obtain ⟨r, hr, hc⟩ := h
  rw [List.mem_filter] at hr
  refine ⟨⟨r, hr.1, hc.symm⟩, ?_⟩
  have : isEligibleRow r = true := hr.2
  unfold isEligibleRow at this
  rw [hc] at this
  exact this

/-- Every row of every payload ever posted passes the gate and carries
only present, non-blank field values. -/
lemma payload_rows_are_eligible (size : Nat) (resp : Nat → TransportResult)
    (records : List Row) (bn : Nat) (p : List Row)
    (hp : (bn, p) ∈ (runSync size resp records).calls) (c : Row) (hc : c ∈ p) :
    gate c = true ∧ ∀ kv ∈ c, notna kv.2 = true ∧ pyStrip (pyStr kv.2) ≠ "" := by
  rw [runSync_calls] at hp
  rw [List.mem_filterMap] at hp
  obtain ⟨ib, hib, hcall⟩ := hp
  unfold callOf at hcall
  by_cases he : (cleanBatch ib.2).isEmpty
  · simp [he] at hcall
  · simp only [he, if_neg, Bool.false_eq_true, not_false_iff, if_false,
      Option.some.injEq, Prod.mk.injEq] at hcall
    obtain ⟨hbn, hpay⟩ := hcall
    rw [← hpay] at hc
    obtain ⟨⟨r, hr, hcr⟩, hg⟩ := mem_cleanBatch ib.2 c hc
    refine ⟨hg, ?_⟩
    intro kv hkv
    rw [hcr] at hkv
    rw [mem_cleanRow_iff] at hkv
    exact ⟨hkv.2.1, hkv.2.2⟩

/-! ### Counting the emitted events -/

lemma callOf_isSome (size : Nat) (ib : Nat × List Row) :
    (callOf size ib).isSome = !(cleanBatch ib.2).isEmpty := by
  unfold callOf
  by_cases h : (cleanBatch ib.2).isEmpty <;> simp [h]

lemma outcomeOf_isSome (size : Nat) (resp : Nat → TransportResult) (ib : Nat × List Row) :
    (outcomeOf size resp ib).isSome = !(cleanBatch ib.2).isEmpty := by
  unfold outcomeOf
  by_cases h : (cleanBatch ib.2).isEmpty <;> simp [h]

lemma progOf_isSome (size total : Nat) (ib : Nat × List Row) :
    (progOf size total ib).isSome = !(cleanBatch ib.2).isEmpty := by
  unfold progOf
  by_cases h : (cleanBatch ib.2).isEmpty <;> simp [h]

/-- One transport call happens for exactly every batch whose cleaned
form is nonempty, whatever the transport answers. -/
lemma runSync_calls_length (size : Nat) (resp : Nat → TransportResult) (records : List Row) :
    (runSync size resp records).calls.length
      = ((pyBatches records size).filter (fun ib => !(cleanBatch ib.2).isEmpty)).length := by
  rw [runSync_calls]
  exact length_filterMap_eq_filter _ _ (callOf_isSome size) _

lemma runSync_outcomes_length (size : Nat) (resp : Nat → TransportResult) (records : List Row) :
    (runSync size resp records).outcomes.length
      = ((pyBatches records size).filter (fun ib => !(cleanBatch ib.2).isEmpty)).length := by
  rw [runSync_outcomes]
  exact length_filterMap_eq_filter _ _ (outcomeOf_isSome size resp) _

lemma runSync_progress_length (size : Nat) (resp : Nat → TransportResult) (records : List Row) :
    (runSync size resp records).progress.length
      = ((pyBatches records size).filter (fun ib => !(cleanBatch ib.2).isEmpty)).length := by
  rw [runSync_progress]
  exact length_filterMap_eq_filter _ _ (progOf_isSome size records.length) _

/-- A member batch's error contribution is bounded by the final error
counter. -/
lemma errContrib_le_error (size : Nat) (resp : Nat → TransportResult)
    (records : List Row) (ib : Nat × List Row) (hib : ib ∈ pyBatches records size) :
    errContrib size resp ib ≤ (runSync size resp records).error := by
  rw [runSync_error]
  exact List.single_le_sum (fun x _ => Nat.zero_le x) _
    (List.mem_map_of_mem (errContrib size resp) hib)

/-! ### Concrete fixtures for witnesses and counterexamples -/

/-- A well-formed row with a nonzero string id and title A. -/
def wRow (n : Nat) : Row :=
  [("id", Value.vStr (toString n)), ("title", Value.vStr "A")]

/-- A row whose title is whitespace only: dropped by cleaning, hence
the row is ineligible. -/
def wBlankTitle : Row :=
  [("id", Value.vStr "9"), ("title", Value.vStr "  ")]

/-- A row whose id is the integer zero: retained by cleaning (its text
form is the non-blank 0) but falsy, hence ineligible. -/
def wZeroId : Row :=
  [("id", Value.vInt 0), ("title", Value.vStr "A")]

/-- A transport that answers 200 to every batch. -/
def respAll200 : Nat → TransportResult := fun _ => TransportResult.res 200

/-- A transport that answers 401 to the second batch and 200 otherwise. -/
def respSecond401 : Nat → TransportResult :=
  fun k => if k == 1 then TransportResult.res 401 else TransportResult.res 200

/-- A transport that answers 500 to the first batch and 200 otherwise. -/
def respFirst500 : Nat → TransportResult :=
  fun k => if k == 0 then TransportResult.res 500 else TransportResult.res 200

/-- A transport whose first call raises a connection error and that
answers 200 otherwise. -/
def respFirstExn : Nat → TransportResult :=
  fun k => if k == 0 then TransportResult.exn "conn" else TransportResult.res 200

/-! ### The claims -/

/-- C1, counterexample: app.py has no authentication-abort. With five
one-row batches and a 401 answered to batch 2, all five batches still
trigger transport calls and all five outcomes are logged, refuting
that the run aborts after batch 2 with no further transport calls. -/
theorem C1_counterexample :
    (runSync 1 respSecond401 [wRow 1, wRow 2, wRow 3, wRow 4, wRow 5]).calls.length = 5
      ∧ (runSync 1 respSecond401 [wRow 1, wRow 2, wRow 3, wRow 4, wRow 5]).error = 1
      ∧ (runSync 1 respSecond401 [wRow 1, wRow 2, wRow 3, wRow 4, wRow 5]).outcomes.length = 5 := by
  decide

/-- C1, amended: a 401 response is classified like any other non-200
status: the batch's eligible count is its exact contribution to the
error total, and dispatch continues — every batch with a nonempty
eligible set still triggers its transport call; the run never aborts. -/
theorem C1_amended (size : Nat) (resp : Nat → TransportResult) (records : List Row)
    (ib : Nat × List Row) (hib : ib ∈ pyBatches records size)
    (hne : (cleanBatch ib.2).isEmpty = false)
    (h401 : resp (ib.1 / size) = TransportResult.res 401) :
    errContrib size resp ib = (cleanBatch ib.2).length
      ∧ errContrib size resp ib ≤ (runSync size resp records).error
      ∧ (runSync size resp records).calls.length
          = ((pyBatches records size).filter (fun jb => !(cleanBatch jb.2).isEmpty)).length := by
  refine ⟨?_, errContrib_le_error size resp records ib hib, runSync_calls_length size resp records⟩
  unfold errContrib
  simp [hne, h401]

/-- C1, witness: the amended statement at the five-batch 401 scenario. -/
theorem C1_witness :
    ((1, [wRow 2]) ∈ pyBatches [wRow 1, wRow 2, wRow 3, wRow 4, wRow 5] 1)
      ∧ (cleanBatch [wRow 2]).isEmpty = false
      ∧ respSecond401 (1 / 1) = TransportResult.res 401
      ∧ (errContrib 1 respSecond401 (1, [wRow 2]) = (cleanBatch [wRow 2]).length
          ∧ errContrib 1 respSecond401 (1, [wRow 2])
              ≤ (runSync 1 respSecond401 [wRow 1, wRow 2, wRow 3, wRow 4, wRow 5]).error
          ∧ (runSync 1 respSecond401 [wRow 1, wRow 2, wRow 3, wRow 4, wRow 5]).calls.length
              = ((pyBatches [wRow 1, wRow 2, wRow 3, wRow 4, wRow 5] 1).filter
                  (fun jb => !(cleanBatch jb.2).isEmpty)).length) :=
  ⟨by decide, by decide, by decide,
    C1_amended 1 respSecond401 [wRow 1, wRow 2, wRow 3, wRow 4, wRow 5] (1, [wRow 2])
      (by decide) (by decide) (by decide)⟩

/-- C2: for any row sequence and batch size at least 1, the contiguous
slices records[i:i+size] taken at i = 0, size, 2*size, ... concatenate
back to the original sequence, number ceil(N/size), all have exactly
size rows except possibly the last, and the last has between 1 and
size rows. -/
theorem C2_batching (records : List Row) (size : Nat) (hs : 1 ≤ size) :
    (pyChunks records size).flatten = records
      ∧ (pyChunks records size).length = (records.length + size - 1) / size
      ∧ (∀ c ∈ (pyChunks records size).dropLast, c.length = size)
      ∧ (∀ c, (pyChunks records size).getLast? = some c
          → 1 ≤ c.length ∧ c.length ≤ size) := by
  refine ⟨pyChunks_join size hs records,
    pyChunks_length_bounded size hs records.length records le_rfl,
    pyChunks_dropLast_bounded size hs records.length records le_rfl, ?_⟩
  intro c hc
  by_cases hrec : records = []
  · rw [hrec, pyChunks_nil] at hc
    exact absurd hc (by simp)
  · exact pyChunks_getLast_bounded size hs records.length records le_rfl hrec c hc

/-- C2, witness: the batching facts at five rows and batch size 2. -/
theorem C2_witness :
    1 ≤ 2
      ∧ ((pyChunks [wRow 1, wRow 2, wRow 3, wRow 4, wRow 5] 2).flatten
            = [wRow 1, wRow 2, wRow 3, wRow 4, wRow 5]
          ∧ (pyChunks [wRow 1, wRow 2, wRow 3, wRow 4, wRow 5] 2).length
              = (([wRow 1, wRow 2, wRow 3, wRow 4, wRow 5] : List Row).length + 2 - 1) / 2
          ∧ (∀ c ∈ (pyChunks [wRow 1, wRow 2, wRow 3, wRow 4, wRow 5] 2).dropLast,
              c.length = 2)
          ∧ (∀ c, (pyChunks [wRow 1, wRow 2, wRow 3, wRow 4, wRow 5] 2).getLast? = some c
              → 1 ≤ c.length ∧ c.length ≤ 2)) :=
  ⟨by decide, C2_batching [wRow 1, wRow 2, wRow 3, wRow 4, wRow 5] 2 (by decide)⟩

/-- C3, counterexample: the row with id 0 and title A retains present,
non-blank values for both required fields after cleaning (the text
form of the integer 0 is the non-blank digit 0), yet the code marks it
ineligible, because line 78 tests Python truthiness of the retained
values and the integer 0 is falsy.  This refutes the claimed
equivalence of eligibility with non-blank retention. -/
theorem C3_counterexample :
    dictGet (sanitize wZeroId).1 "id" = some (Value.vInt 0)
      ∧ notna (Value.vInt 0) = true
      ∧ pyStrip (pyStr (Value.vInt 0)) ≠ ""
      ∧ dictGet (sanitize wZeroId).1 "title" = some (Value.vStr "A")
      ∧ notna (Value.vStr "A") = true
      ∧ pyStrip (pyStr (Value.vStr "A")) ≠ ""
      ∧ (sanitize wZeroId).2 = false := by
  decide

/-- C3, amended: a field is kept in the clean row exactly when its value
is present and its text form is non-blank after stripping; the row is
classified eligible exactly when the clean row retains values for both
id and title that are moreover Python-truthy — a retained integer 0 or
boolean False is non-blank yet makes the row ineligible. -/
theorem C3_amended (row : Row) :
    (∀ kv : String × Value, kv ∈ (sanitize row).1
        ↔ kv ∈ row ∧ notna kv.2 = true ∧ pyStrip (pyStr kv.2) ≠ "")
      ∧ ((sanitize row).2 = true
        ↔ (∃ v, dictGet (sanitize row).1 "id" = some v ∧ notna v = true
              ∧ pyStrip (pyStr v) ≠ "" ∧ truthy v = true)
          ∧ (∃ v, dictGet (sanitize row).1 "title" = some v ∧ notna v = true
              ∧ pyStrip (pyStr v) ≠ "" ∧ truthy v = true)) := by
  constructor
  · intro kv
    exact mem_cleanRow_iff row kv
  · show gate (cleanRow row) = true ↔ _
    rw [gate_eq_true_iff]
    constructor
    · rintro ⟨⟨v1, hv1, ht1⟩, ⟨v2, hv2, ht2⟩⟩
      have hm1 := mem_of_dictGet _ _ _ hv1
      have hm2 := mem_of_dictGet _ _ _ hv2
      rw [show cleanRow row = (sanitize row).1 from rfl] at hv1 hv2
      rw [mem_cleanRow_iff] at hm1 hm2
      exact ⟨⟨v1, hv1, hm1.2.1, hm1.2.2, ht1⟩, ⟨v2, hv2, hm2.2.1, hm2.2.2, ht2⟩⟩
    · rintro ⟨⟨v1, hv1, _, _, ht1⟩, ⟨v2, hv2, _, _, ht2⟩⟩
      exact ⟨⟨v1, hv1, ht1⟩, ⟨v2, hv2, ht2⟩⟩

/-- C4: across the whole app action, a raw row that lacks the id field
(no id key, or the id value is the missing marker) or whose title
strips to the empty string never occurs in any submitted payload,
since every payload row passed the gate and carries only present,
non-blank values. -/
theorem C4_gate (cols : List String) (token : String) (size : Nat)
    (resp : Nat → TransportResult) (records : List Row)
    (r : Row) (bn : Nat) (p : List Row)
    (hp : (bn, p) ∈ appCalls (runApp cols token size resp records))
    (hbad : dictGet r "id" = none ∨ dictGet r "id" = some Value.missing
      ∨ (∃ v, dictGet r "title" = some v ∧ pyStrip (pyStr v) = "")) :
    r ∉ p := by
  intro hrp
  unfold runApp at hp
  by_cases h1 : "id" ∉ cols ∨ "title" ∉ cols
  · rw [if_pos h1] at hp
    simp [appCalls] at hp
  · rw [if_neg h1] at hp
    by_cases h2 : token = ""
    · rw [if_pos h2] at hp
      simp [appCalls] at hp
    · rw [if_neg h2] at hp
      have hcalls : (bn, p) ∈ (runSync size resp records).calls := hp
      obtain ⟨hg, hall⟩ :=
        payload_rows_are_eligible size resp records bn p hcalls r hrp
      rw [gate_eq_true_iff] at hg
      rcases hbad with hb | hb | ⟨v, hv, hblank⟩
      · obtain ⟨⟨v, hv, _⟩, _⟩ := hg
        rw [hb] at hv
        exact Option.noConfusion hv
      · have hmem := mem_of_dictGet r "id" Value.missing hb
        have := (hall ("id", Value.missing) hmem).1
        simp [notna] at this
      · have hmem := mem_of_dictGet r "title" v hv
        have := (hall ("title", v) hmem).2
        exact this hblank

/-- C4, witness: a run over a good row and a blank-title row submits one
payload holding only the cleaned good row; the blank-title row is
absent from it. -/
theorem C4_witness :
    ((1, [cleanRow (wRow 1)])
        ∈ appCalls (runApp ["id", "title"] "t" 10 respAll200 [wRow 1, wBlankTitle]))
      ∧ (dictGet wBlankTitle "id" = none
          ∨ dictGet wBlankTitle "id" = some Value.missing
          ∨ (∃ v, dictGet wBlankTitle "title" = some v ∧ pyStrip (pyStr v) = ""))
      ∧ wBlankTitle ∉ [cleanRow (wRow 1)] :=
  ⟨by decide,
    Or.inr (Or.inr ⟨Value.vStr "  ", by decide, by decide⟩),
    C4_gate ["id", "title"] "t" 10 respAll200 [wRow 1, wBlankTitle] wBlankTitle 1
      [cleanRow (wRow 1)] (by decide)
      (Or.inr (Or.inr ⟨Value.vStr "  ", by decide, by decide⟩))⟩

/-- C5: a batch answered a non-200 status contributes exactly its
eligible count to the error total, dispatch still reaches every batch
with a nonempty eligible set, and at completion success plus error
equals the eligible total, which is the row total minus the skipped
(ineligible) total. -/
theorem C5_continue (size : Nat) (resp : Nat → TransportResult) (records : List Row)
    (ib : Nat × List Row) (st : Int) (hs : 1 ≤ size)
    (hib : ib ∈ pyBatches records size)
    (hne : (cleanBatch ib.2).isEmpty = false)
    (hresp : resp (ib.1 / size) = TransportResult.res st) (hst : st ≠ 200) :
    errContrib size resp ib = (cleanBatch ib.2).length
      ∧ errContrib size resp ib ≤ (runSync size resp records).error
      ∧ (runSync size resp records).calls.length
          = ((pyBatches records size).filter (fun jb => !(cleanBatch jb.2).isEmpty)).length
      ∧ (runSync size resp records).success + (runSync size resp records).error
          = eligibleCount records
      ∧ eligibleCount records = records.length - ineligibleCount records := by
  refine ⟨?_, errContrib_le_error size resp records ib hib,
    runSync_calls_length size resp records,
    success_add_error size hs resp records, ?_⟩
  · unfold errContrib
    have hbeq : (st == 200) = false := by
      simp [hst]
    simp [hne, hresp, hbeq]
  · have := eligible_add_ineligible records
    omega

/-- C5, witness: the statement at three one-row batches whose first
response is 500. -/
theorem C5_witness :
    ((0, [wRow 1]) ∈ pyBatches [wRow 1, wRow 2, wRow 3] 1)
      ∧ (cleanBatch [wRow 1]).isEmpty = false
      ∧ respFirst500 (0 / 1) = TransportResult.res 500
      ∧ (500 : Int) ≠ 200
      ∧ 1 ≤ 1
      ∧ (errContrib 1 respFirst500 (0, [wRow 1]) = (cleanBatch [wRow 1]).length
          ∧ errContrib 1 respFirst500 (0, [wRow 1])
              ≤ (runSync 1 respFirst500 [wRow 1, wRow 2, wRow 3]).error
          ∧ (runSync 1 respFirst500 [wRow 1, wRow 2, wRow 3]).calls.length
              = ((pyBatches [wRow 1, wRow 2, wRow 3] 1).filter
                  (fun jb => !(cleanBatch jb.2).isEmpty)).length
          ∧ (runSync 1 respFirst500 [wRow 1, wRow 2, wRow 3]).success
                + (runSync 1 respFirst500 [wRow 1, wRow 2, wRow 3]).error
              = eligibleCount [wRow 1, wRow 2, wRow 3]
          ∧ eligibleCount [wRow 1, wRow 2, wRow 3]
              = ([wRow 1, wRow 2, wRow 3] : List Row).length
                  - ineligibleCount [wRow 1, wRow 2, wRow 3]) :=
  ⟨by decide, by decide, by decide, by decide, by decide,
    C5_continue 1 respFirst500 [wRow 1, wRow 2, wRow 3] (0, [wRow 1]) 500
      (by decide) (by decide) (by decide) (by decide) (by decide)⟩

/-- C6: a batch whose transport call raises contributes exactly its
eligible count to the error total, its outcome is logged as a
transport error, and dispatch still reaches every batch with a
nonempty eligible set — the run does not abort. -/
theorem C6_transport (size : Nat) (resp : Nat → TransportResult) (records : List Row)
    (ib : Nat × List Row) (msg : String)
    (hib : ib ∈ pyBatches records size)
    (hne : (cleanBatch ib.2).isEmpty = false)
    (hresp : resp (ib.1 / size) = TransportResult.exn msg) :
    errContrib size resp ib = (cleanBatch ib.2).length
      ∧ errContrib size resp ib ≤ (runSync size resp records).error
      ∧ (⟨ib.1 / size + 1, OutcomeKind.transportError, none,
            (cleanBatch ib.2).length⟩ : BatchOutcome)
          ∈ (runSync size resp records).outcomes
      ∧ (runSync size resp records).calls.length
          = ((pyBatches records size).filter (fun jb => !(cleanBatch jb.2).isEmpty)).length := by
  refine ⟨?_, errContrib_le_error size resp records ib hib, ?_,
    runSync_calls_length size resp records⟩
  · unfold errContrib
    simp [hne, hresp]
  · rw [runSync_outcomes, List.mem_filterMap]
    refine ⟨ib, hib, ?_⟩
    unfold outcomeOf
    simp [hne, hresp]

/-- C6, witness: the statement at two one-row batches whose first
transport call raises a connection error. -/
theorem C6_witness :
    ((0, [wRow 1]) ∈ pyBatches [wRow 1, wRow 2] 1)
      ∧ (cleanBatch [wRow 1]).isEmpty = false
      ∧ respFirstExn (0 / 1) = TransportResult.exn "conn"
      ∧ (errContrib 1 respFirstExn (0, [wRow 1]) = (cleanBatch [wRow 1]).length
          ∧ errContrib 1 respFirstExn (0, [wRow 1])
              ≤ (runSync 1 respFirstExn [wRow 1, wRow 2]).error
          ∧ (⟨0 / 1 + 1, OutcomeKind.transportError, none,
                (cleanBatch [wRow 1]).length⟩ : BatchOutcome)
              ∈ (runSync 1 respFirstExn [wRow 1, wRow 2]).outcomes
          ∧ (runSync 1 respFirstExn [wRow 1, wRow 2]).calls.length
              = ((pyBatches [wRow 1, wRow 2] 1).filter
                  (fun jb => !(cleanBatch jb.2).isEmpty)).length) :=
  ⟨by decide, by decide, by decide,
    C6_transport 1 respFirstExn [wRow 1, wRow 2] (0, [wRow 1]) "conn"
      (by decide) (by decide) (by decide)⟩

/-- C7: when the resolved column set lacks id or title, the app stops
with the schema error before any network activity: the result is the
schema failure, no transport call exists, and the dispatch loop (hence
any counter) never comes into being. -/
theorem C7_schema (cols : List String) (token : String) (size : Nat)
    (resp : Nat → TransportResult) (records : List Row)
    (h : "id" ∉ cols ∨ "title" ∉ cols) :
    runApp cols token size resp records = AppResult.schemaError
      ∧ appCalls (runApp cols token size resp records) = []
      ∧ isRan (runApp cols token size resp records) = false := by
  have hres : runApp cols token size resp records = AppResult.schemaError := by
    unfold runApp
    rw [if_pos h]
  exact ⟨hres, by rw [hres]; rfl, by rw [hres]; rfl⟩

/-- C7, witness: the schema failure at a column set without id. -/
theorem C7_witness :
    ("id" ∉ ["title", "name"] ∨ "title" ∉ ["title", "name"])
      ∧ (runApp ["title", "name"] "t" 10 respAll200 [wRow 1] = AppResult.schemaError
          ∧ appCalls (runApp ["title", "name"] "t" 10 respAll200 [wRow 1]) = []
          ∧ isRan (runApp ["title", "name"] "t" 10 respAll200 [wRow 1]) = false) :=
  ⟨Or.inl (by decide),
    C7_schema ["title", "name"] "t" 10 respAll200 [wRow 1] (Or.inl (by decide))⟩

/-- C8, counterexample: one batch whose only row is ineligible.  The
continue on line 81 skips lines 141-144 as well, so the run emits no
outcome and no progress event at all — refuting that an empty-skip
outcome and a progress event are still emitted for such a batch. -/
theorem C8_counterexample :
    (pyBatches [wBlankTitle] 1).length = 1
      ∧ (runSync 1 respAll200 [wBlankTitle]).calls = []
      ∧ (runSync 1 respAll200 [wBlankTitle]).outcomes = []
      ∧ (runSync 1 respAll200 [wBlankTitle]).progress = [] := by
  decide

/-- C8, amended: a batch with an empty eligible set makes no network
call but also emits no outcome and no progress event; calls, outcome
log entries and progress events each arise from exactly the batches
with a nonempty eligible set, one per such batch, in order (callOf,
outcomeOf and progOf return none on an empty cleaned batch). -/
theorem C8_amended (size : Nat) (resp : Nat → TransportResult) (records : List Row) :
    (runSync size resp records).calls
        = (pyBatches records size).filterMap (callOf size)
      ∧ (runSync size resp records).outcomes
          = (pyBatches records size).filterMap (outcomeOf size resp)
      ∧ (runSync size resp records).progress
          = (pyBatches records size).filterMap (progOf size records.length)
      ∧ (runSync size resp records).progress.length
          = ((pyBatches records size).filter (fun ib => !(cleanBatch ib.2).isEmpty)).length
      ∧ (runSync size resp records).calls.length
          = ((pyBatches records size).filter (fun ib => !(cleanBatch ib.2).isEmpty)).length :=
  ⟨runSync_calls size resp records, runSync_outcomes size resp records,
    runSync_progress size resp records, runSync_progress_length size resp records,
    runSync_calls_length size resp records⟩

/-- C9, counterexample: on the spec's own end-to-end scenario (rows 1
and 3 eligible, row 2 blank-titled, batch size 2, all responses 200)
the final summary is the exact text Job Complete! Sent: 2 | Failed: 0.
One row was skipped, yet the digit 1 occurs nowhere in the summary, so
the skipped count is not reported: app.py maintains no skipped
counter. -/
theorem C9_counterexample :
    finalMessage (runSync 2 respAll200 [wRow 1, wBlankTitle, wRow 3])
        = "Job Complete! Sent: 2 | Failed: 0"
      ∧ ineligibleCount [wRow 1, wBlankTitle, wRow 3] = 1
      ∧ (finalMessage (runSync 2 respAll200 [wRow 1, wBlankTitle, wRow 3])).data.contains
          (Char.ofNat 49) = false := by
  decide

/-- C9, amended: the final summary reports only the success and error
counters; no skipped counter is maintained or reported.  The counts
are nonetheless consistent: success plus error plus the ineligible
total equals the number of input rows, so the skipped total is
determined even though it never appears in the summary. -/
theorem C9_amended (size : Nat) (hs : 1 ≤ size) (resp : Nat → TransportResult)
    (records : List Row) :
    (runSync size resp records).success + (runSync size resp records).error
        + ineligibleCount records = records.length
      ∧ finalMessage (runSync size resp records)
        = "Job Complete! Sent: " ++ toString (runSync size resp records).success
            ++ " | Failed: " ++ toString (runSync size resp records).error := by
  constructor
  · have h1 := success_add_error size hs resp records
    have h2 := eligible_add_ineligible records
    omega
  · rfl

/-- C9, witness: the amended statement at the end-to-end scenario. -/
theorem C9_witness :
    1 ≤ 2
      ∧ ((runSync 2 respAll200 [wRow 1, wBlankTitle, wRow 3]).success
            + (runSync 2 respAll200 [wRow 1, wBlankTitle, wRow 3]).error
            + ineligibleCount [wRow 1, wBlankTitle, wRow 3]
          = ([wRow 1, wBlankTitle, wRow 3] : List Row).length
        ∧ finalMessage (runSync 2 respAll200 [wRow 1, wBlankTitle, wRow 3])
          = "Job Complete! Sent: "
              ++ toString (runSync 2 respAll200 [wRow 1, wBlankTitle, wRow 3]).success
              ++ " | Failed: "
              ++ toString (runSync 2 respAll200 [wRow 1, wBlankTitle, wRow 3]).error) :=
  ⟨by decide, C9_amended 2 (by decide) respAll200 [wRow 1, wBlankTitle, wRow 3]⟩

/-- C10: with an empty token the token guard fires before the loop: the
app result is the missing-token failure, so no transport call is made
and the dispatch loop state (the counters) is never created. -/
theorem C10_token (cols : List String) (size : Nat)
    (resp : Nat → TransportResult) (records : List Row) :
    appCalls (runApp cols "" size resp records) = []
      ∧ isRan (runApp cols "" size resp records) = false := by
  unfold runApp
  by_cases h : "id" ∉ cols ∨ "title" ∉ cols
  · rw [if_pos h]
    exact ⟨rfl, rfl⟩
  · rw [if_neg h, if_pos rfl]
    exact ⟨rfl, rfl⟩

end DataSync
